import Mathlib

/-!
Verification development for the `controller_vive_communication` repository.

The repository polls HTC Vive controllers through OpenVR (`src/main.py`),
serializes a per-frame snapshot of both hands to JSON and sends it over UDP;
receiver processes (`src/vive_matplotlib_visualizer.py`,
`src/examples/custom_receiver.py`, `src/vive_receiver3.py`) decode the
snapshot and reconstruct controller state.

This file gives a shallow embedding of the snapshot construction, the
receiver-side reconstruction, the history buffers, the auto-scaling bounds
and the rotation conversions, and proves the specification claims about them.
JSON numbers are modelled as rationals; the real-valued trigonometry of the
rotation conversions is modelled over `ℝ` in a separate section.
-/

/-- JSON values, as produced by `json.dumps` / consumed by `json.loads`.
Objects are association lists in insertion order (Python dict order). -/
inductive JValue where
  | null : JValue
  | bool : Bool → JValue
  | num : ℚ → JValue
  | str : String → JValue
  | arr : List JValue → JValue
  | obj : List (String × JValue) → JValue

/-- First-match lookup in an association list (Python `d[k]` / `k in d`). -/
def lookupField : List (String × JValue) → String → Option JValue
  | [], _ => none
  | (k0, v0) :: rest, k => if k0 = k then some v0 else lookupField rest k

/-- Python `k in d` for a dict modelled as an association list. -/
def containsKey (fs : List (String × JValue)) (k : String) : Bool :=
  (lookupField fs k).isSome

/-- Python `d[k] = v`: replace the first binding of `k` in place, or append a
new binding at the end (dict insertion-order semantics). -/
def setKey : List (String × JValue) → String → JValue → List (String × JValue)
  | [], k, v => [(k, v)]
  | (k0, v0) :: rest, k, v =>
      if k0 = k then (k0, v) :: rest else (k0, v0) :: setKey rest k v

/-- Dict field access on a JSON value: `some` iff the value is an object
containing the key. -/
def jGet : JValue → String → Option JValue
  | .obj fs, k => lookupField fs k
  | _, _ => none

/-- Python `k in v` for the dict case.  The receivers only apply membership
tests to values that the wire format makes objects; non-object values give
`false` here. -/
def jHasKey : JValue → String → Bool
  | .obj fs, k => containsKey fs k
  | _, _ => false

/-- Python truthiness of a decoded JSON value. -/
def jTruthy : JValue → Bool
  | .null => false
  | .bool b => b
  | .num q => q != 0
  | .str s => s != ""
  | .arr xs => !xs.isEmpty
  | .obj fs => !fs.isEmpty

/-- Extract a numeric JSON value. -/
def getNum : Option JValue → Option ℚ
  | some (.num q) => some q
  | _ => none

/-! ## Sender (`src/main.py`)

OpenVR button-id constants used by `get_controller_info` (values from the
`openvr` module). -/

def k_EButton_System : Nat := 0
def k_EButton_ApplicationMenu : Nat := 1
def k_EButton_Grip : Nat := 2
def k_EButton_DPad_Left : Nat := 3
def k_EButton_DPad_Up : Nat := 4
def k_EButton_DPad_Right : Nat := 5
def k_EButton_DPad_Down : Nat := 6
def k_EButton_A : Nat := 7
def k_EButton_SteamVR_Touchpad : Nat := 32
def k_EButton_SteamVR_Trigger : Nat := 33

/-- `get_button_names` (src/main.py lines 34-47): button ids with their
display names, in the dict-literal insertion order. -/
def button_names : List (Nat × String) :=
  [(k_EButton_System, "System"),
   (k_EButton_ApplicationMenu, "Menu"),
   (k_EButton_Grip, "Grip"),
   (k_EButton_DPad_Left, "Trackpad Left"),
   (k_EButton_DPad_Up, "Trackpad Up"),
   (k_EButton_DPad_Right, "Trackpad Right"),
   (k_EButton_DPad_Down, "Trackpad Down"),
   (k_EButton_A, "A Button"),
   (k_EButton_SteamVR_Touchpad, "Trackpad Touch"),
   (k_EButton_SteamVR_Trigger, "Trigger")]

/-- `button_name.lower().replace(" ", "_")` (src/main.py line 206):
lower-case the name, then replace the one-character pattern `" "` by `"_"`,
realized as a character map. -/
def buttonKey (name : String) : String :=
  String.mk (name.data.map (fun c => if c.toLower = ' ' then '_' else c.toLower))

/-- The OpenVR controller state read by `getControllerState`: the two 64-bit
button masks (modelled as `Nat`, only bit tests are performed on them) and
the analog axes, each axis an `(x, y)` pair. -/
structure ControllerState where
  ulButtonPressed : Nat
  ulButtonTouched : Nat
  rAxis : List (ℚ × ℚ)

/-- The per-frame, per-hand inputs that `get_controller_info` reads from the
SDK for a detected controller: pose validity, the pose translation column,
the Euler angles computed by `extract_rotation_euler` from the pose matrix
(real-valued trigonometry, modelled over `ℝ` in the rotation section below;
here the resulting triple enters as data), the `getControllerState` success
flag and the controller state. -/
structure SenderHandInput where
  poseValid : Bool
  px : ℚ
  py : ℚ
  pz : ℚ
  roll : ℚ
  pitch : ℚ
  yaw : ℚ
  result : Bool
  state : ControllerState

/-- `(state.ulButtonPressed & (1 << button_id)) != 0`. -/
def pressedBit (st : ControllerState) (b : Nat) : Bool :=
  (st.ulButtonPressed &&& (1 <<< b)) != 0

/-- `(state.ulButtonTouched & (1 << button_id)) != 0`. -/
def touchedBit (st : ControllerState) (b : Nat) : Bool :=
  (st.ulButtonTouched &&& (1 <<< b)) != 0

/-- The per-hand snapshot entry built by `get_controller_info`
(src/main.py lines 114-231) for a detected controller, following the source
statement by statement: the entry is initialized with `tracked: false` and
four empty sub-objects; when the pose is valid, `tracked`, `position` and
`rotation` are set; when additionally `getControllerState` succeeded,
`raw_buttons`, the named button states (the direct checks followed by the
`button_names` loop, which overwrites the bool-encoded entries with dicts),
and the analog values are stored. -/
def hand_entry (h : SenderHandInput) : JValue :=
  let entry : List (String × JValue) :=
    [("tracked", .bool false), ("position", .obj []), ("rotation", .obj []),
     ("buttons", .obj []), ("analog", .obj [])]
  if h.poseValid then
    let entry := setKey entry "tracked" (.bool true)
    let entry := setKey entry "position"
      (.obj [("x", .num h.px), ("y", .num h.py), ("z", .num h.pz)])
    let entry := setKey entry "rotation"
      (.obj [("roll", .num h.roll), ("pitch", .num h.pitch), ("yaw", .num h.yaw)])
    if h.result then
      let entry := setKey entry "raw_buttons"
        (.obj [("pressed", .num h.state.ulButtonPressed),
               ("touched", .num h.state.ulButtonTouched)])
      let buttons : List (String × JValue) := []
      let buttons := setKey buttons "system" (.bool (pressedBit h.state k_EButton_System))
      let buttons := setKey buttons "menu" (.bool (pressedBit h.state k_EButton_ApplicationMenu))
      let buttons := setKey buttons "grip" (.bool (pressedBit h.state k_EButton_Grip))
      let buttons := setKey buttons "trigger" (.bool (pressedBit h.state k_EButton_SteamVR_Trigger))
      let buttons := setKey buttons "trackpad"
        (.obj [("pressed", .bool (pressedBit h.state k_EButton_SteamVR_Touchpad)),
               ("touched", .bool (touchedBit h.state k_EButton_SteamVR_Touchpad))])
      let buttons := button_names.foldl
        (fun bs idName =>
          setKey bs (buttonKey idName.2)
            (.obj [("pressed", .bool (pressedBit h.state idName.1)),
                   ("touched", .bool (touchedBit h.state idName.1))])) buttons
      let entry := setKey entry "buttons" (.obj buttons)
      let trigger_value : ℚ :=
        if h.state.rAxis.length > 1 then (h.state.rAxis.getD 1 (0, 0)).1 else 0
      let analog := setKey [] "trigger" (.num trigger_value)
      let analog :=
        if h.state.rAxis.length > 0 then
          setKey analog "trackpad"
            (.obj [("x", .num (h.state.rAxis.getD 0 (0, 0)).1),
                   ("y", .num (h.state.rAxis.getD 0 (0, 0)).2)])
        else analog
      let entry := setKey entry "analog" (.obj analog)
      .obj entry
    else .obj entry
  else .obj entry

/-- One transmitted snapshot (src/main.py lines 104-248): the loop body
iterates `controllers.items()` in the order left, right, adding an entry only
for a hand whose device index was found at startup, then adds the timestamp
before the UDP send. -/
def build_snapshot (left right : Option SenderHandInput) (timestamp : ℚ) : JValue :=
  let d : List (String × JValue) := []
  let d := match left with
    | some h => setKey d "left" (hand_entry h)
    | none => d
  let d := match right with
    | some h => setKey d "right" (hand_entry h)
    | none => d
  let d := setKey d "timestamp" (.num timestamp)
  .obj d

/-- The guard of the sender's polling loop, src/main.py line 90:
`while True:`. -/
def senderLoopGuard : Bool := true

/-- Result of running the sender's polling loop with a given amount of fuel:
the snapshots sent so far and whether the loop exited through its guard. -/
structure SenderRun where
  sent : List JValue
  terminated : Bool

/-- Fuel-bounded execution of the sender's polling loop (src/main.py lines
89-256, with the UDP socket configured): each iteration samples the two
hands from the environment, builds the snapshot and sends it; the loop exits
on its own only if `senderLoopGuard` is false. -/
def runSenderLoop (env : Nat → Option SenderHandInput × Option SenderHandInput × ℚ) :
    Nat → Nat → List JValue → SenderRun
  | 0, _, acc => ⟨acc.reverse, false⟩
  | fuel + 1, n, acc =>
      if senderLoopGuard then
        let (l, r, ts) := env n
        runSenderLoop env fuel (n + 1) (build_snapshot l r ts :: acc)
      else ⟨acc.reverse, true⟩

/-! ## Matplotlib visualizer (`src/vive_matplotlib_visualizer.py`)

Receiver-side state for one hand of `ViveControllerVisualizer`.  The
`tracked`, `buttons` and `trigger_pressed` attributes store whatever decoded
JSON value the update assigned (the source keeps them as plain Python
values); positions and trails are rationals, matching the numeric wire
format (non-numeric coordinate or analog values raise `TypeError` in the
source's `min`/`>` expressions, killing the receiver thread, and are not
modelled: the corresponding branches are taken only for numeric values). -/

structure VizHand where
  tracked : JValue
  position : ℚ × ℚ × ℚ
  rotation : JValue × JValue × JValue
  buttons : JValue
  trigger_pressed : JValue
  trail_x : List ℚ
  trail_y : List ℚ
  trail_z : List ℚ

/-- The auto-scaling bounds `min_x .. max_z` of the visualizer. -/
structure MinMax where
  min_x : ℚ
  max_x : ℚ
  min_y : ℚ
  max_y : ℚ
  min_z : ℚ
  max_z : ℚ

/-- Full reconstruction state of the visualizer relevant to the claims. -/
structure VizState where
  left : VizHand
  right : VizHand
  mm : MinMax

/-- `collections.deque(maxlen=m)` append: keep at most the `m` newest
entries, discarding from the front. -/
def dequeAppend (m : Nat) (xs : List ℚ) (x : ℚ) : List ℚ :=
  let ys := xs ++ [x]
  if ys.length > m then ys.drop (ys.length - m) else ys

/-- `self.left_tracked = self.latest_data["left"].get("tracked", False)`
(src/vive_matplotlib_visualizer.py line 298). -/
def stepTracked (hd : JValue) (h : VizHand) : VizHand :=
  { h with tracked := (jGet hd "tracked").getD (.bool false) }

/-- Button-state update (src/vive_matplotlib_visualizer.py lines 303-312):
even if not tracked, replace the stored buttons when present, then resolve
the trigger state from the button encoding (bool, or dict with a `pressed`
field defaulting to false). -/
def stepButtons (hd : JValue) (h : VizHand) : VizHand :=
  match jGet hd "buttons" with
  | some bv =>
      let h2 := { h with buttons := bv }
      match jGet bv "trigger" with
      | some (.bool b) => { h2 with trigger_pressed := .bool b }
      | some (.obj d) =>
          { h2 with trigger_pressed := (lookupField d "pressed").getD (.bool false) }
      | _ => h2
  | none => h

/-- Position update for a tracked hand (src/vive_matplotlib_visualizer.py
lines 316-336): when the position object carries x, y and z, store the
position, append it to the three trail deques, and widen the auto-scaling
bounds. -/
def stepPosition (maxTrail : Nat) (hd : JValue) (h : VizHand) (mm : MinMax) :
    VizHand × MinMax :=
  match jGet hd "position" with
  | some pv =>
      if jHasKey pv "x" && jHasKey pv "y" && jHasKey pv "z" then
        match getNum (jGet pv "x"), getNum (jGet pv "y"), getNum (jGet pv "z") with
        | some x, some y, some z =>
            ({ h with
                position := (x, y, z),
                trail_x := dequeAppend maxTrail h.trail_x x,
                trail_y := dequeAppend maxTrail h.trail_y y,
                trail_z := dequeAppend maxTrail h.trail_z z },
             { min_x := min mm.min_x x, max_x := max mm.max_x x,
               min_y := min mm.min_y y, max_y := max mm.max_y y,
               min_z := min mm.min_z z, max_z := max mm.max_z z })
        | _, _, _ => (h, mm)
      else (h, mm)
  | none => (h, mm)

/-- Rotation update for a tracked hand (src/vive_matplotlib_visualizer.py
lines 339-342): stored when roll, pitch and yaw are all present. -/
def stepRotation (hd : JValue) (h : VizHand) : VizHand :=
  match jGet hd "rotation" with
  | some rv =>
      if jHasKey rv "roll" && jHasKey rv "pitch" && jHasKey rv "yaw" then
        { h with rotation := ((jGet rv "roll").getD .null,
                              (jGet rv "pitch").getD .null,
                              (jGet rv "yaw").getD .null) }
      else h
  | none => h

/-- The analog trigger value carried by a hand's snapshot entry: present
when `"analog" in data[hand]` and `"trigger" in data[hand]["analog"]`, and
the value is numeric (the source's `> 0.5` comparison). -/
def analogTriggerOf (hd : JValue) : Option ℚ :=
  match jGet hd "analog" with
  | some av => if jHasKey av "trigger" then getNum (jGet av "trigger") else none
  | none => none

/-- Alternative trigger check for a tracked hand (src/vive_matplotlib_visualizer.py
lines 345-346): `self.left_trigger_pressed = data["left"]["analog"]["trigger"] > 0.5`. -/
def stepAnalog (hd : JValue) (h : VizHand) : VizHand :=
  match analogTriggerOf hd with
  | some a => { h with trigger_pressed := .bool (decide ((0.5 : ℚ) < a)) }
  | none => h

/-- Per-hand block of `update_controller_data`
(src/vive_matplotlib_visualizer.py lines 296-346 for the left hand, lines
349-399 for the right hand, which are textually identical up to the hand):
read the tracked flag, update buttons and the button-derived trigger state
even when untracked, and only when the tracked value is truthy update
position (plus trails and auto-scaling bounds), rotation, and the
analog-derived trigger state. -/
def update_controller_hand (maxTrail : Nat) (hd : JValue) (h : VizHand) (mm : MinMax) :
    VizHand × MinMax :=
  let h := stepTracked hd h
  let h := stepButtons hd h
  if jTruthy h.tracked then
    let hm := stepPosition maxTrail hd h mm
    let h := stepRotation hd hm.1
    let h := stepAnalog hd h
    (h, hm.2)
  else (h, mm)

/-- `ViveControllerVisualizer.update_controller_data`
(src/vive_matplotlib_visualizer.py lines 286-399): return unchanged when the
latest data is falsy, otherwise run the left-hand block when a `left` entry
is present, then the right-hand block when a `right` entry is present. -/
def update_controller_data (maxTrail : Nat) (data : JValue) (s : VizState) : VizState :=
  if jTruthy data then
    let s :=
      if jHasKey data "left" then
        let hm := update_controller_hand maxTrail ((jGet data "left").getD .null) s.left s.mm
        { s with left := hm.1, mm := hm.2 }
      else s
    if jHasKey data "right" then
      let hm := update_controller_hand maxTrail ((jGet data "right").getD .null) s.right s.mm
      { s with right := hm.1, mm := hm.2 }
    else s
  else s

/-- Initial per-hand state of the visualizer (`__init__`,
src/vive_matplotlib_visualizer.py lines 50-86). -/
def initVizHand : VizHand :=
  { tracked := .bool false,
    position := (0, 0, 0),
    rotation := (.num 0, .num 0, .num 0),
    buttons := .obj [],
    trigger_pressed := .bool false,
    trail_x := [], trail_y := [], trail_z := [] }

/-- Initial auto-scaling bounds (`__init__`, line 92-94): all zero. -/
def initMinMax : MinMax := ⟨0, 0, 0, 0, 0, 0⟩

/-- Initial visualizer state. -/
def initVizState : VizState := ⟨initVizHand, initVizHand, initMinMax⟩

/-- The guard chain of the per-hand recording branch: a min/max (and trail)
update happens for a hand exactly when its entry is marked tracked (truthy)
and carries a position object with numeric x, y and z. -/
def handRecords (hd : JValue) : Bool :=
  jTruthy ((jGet hd "tracked").getD (.bool false)) &&
  (match jGet hd "position" with
   | some pv =>
       jHasKey pv "x" && jHasKey pv "y" && jHasKey pv "z" &&
       (getNum (jGet pv "x")).isSome && (getNum (jGet pv "y")).isSome &&
       (getNum (jGet pv "z")).isSome
   | none => false)

/-- A received snapshot records a tracked position during
`update_controller_data` iff it is truthy and one of its hand entries
records. -/
def recordedPosition (data : JValue) : Bool :=
  jTruthy data &&
  ((jHasKey data "left" && handRecords ((jGet data "left").getD .null)) ||
   (jHasKey data "right" && handRecords ((jGet data "right").getD .null)))

/-! ## Custom receiver (`src/examples/custom_receiver.py`) -/

/-- The three per-axis position-history lists kept by `ViveDataReceiver`
for one hand. -/
structure HandHist where
  hx : List ℚ
  hy : List ℚ
  hz : List ℚ

/-- `self.max_history = 100` (src/examples/custom_receiver.py line 37). -/
def maxHistory : Nat := 100

/-- Python `lst[-n:]`: the last `n` elements. -/
def takeLast (n : Nat) (xs : List ℚ) : List ℚ :=
  xs.drop (xs.length - n)

/-- Append one position to the three per-axis lists, then trim each to the
last `max_history` entries when the x-list grew beyond the bound
(src/examples/custom_receiver.py lines 56-65). -/
def histAppend (hh : HandHist) (x y z : ℚ) : HandHist :=
  let hx := hh.hx ++ [x]
  let hy := hh.hy ++ [y]
  let hz := hh.hz ++ [z]
  if hx.length > maxHistory then
    ⟨takeLast maxHistory hx, takeLast maxHistory hy, takeLast maxHistory hz⟩
  else ⟨hx, hy, hz⟩

/-- Per-hand history step of `ViveDataReceiver.update` (src/examples/
custom_receiver.py lines 52-65): record the position when the hand entry is
present and its tracked flag truthy.  A tracked entry without a position
object or coordinate keys raises `KeyError` in the source and is not
modelled; coordinates are numeric on the wire. -/
def recvHandStep (d : JValue) (hand : String) (hh : HandHist) : HandHist :=
  if jHasKey d hand && jTruthy ((jGet ((jGet d hand).getD .null) "tracked").getD (.bool false)) then
    let pos := (jGet ((jGet d hand).getD .null) "position").getD .null
    match getNum (jGet pos "x"), getNum (jGet pos "y"), getNum (jGet pos "z") with
    | some x, some y, some z => histAppend hh x y z
    | _, _, _ => hh
  else hh

/-- Reconstructed state of `ViveDataReceiver`: the latest decoded snapshot
and the per-hand position histories. -/
structure RecvState where
  latest_data : Option JValue
  histL : HandHist
  histR : HandHist

/-- Outcome of running `json.loads(data.decode())` on a received datagram's
bytes: the bytes may fail UTF-8 decoding (`data.decode()` raises
`UnicodeDecodeError`), decode as text that fails JSON parsing (`json.loads`
raises `json.JSONDecodeError`), or parse to a JSON value.  Both failure
constructors stand for payloads that are not valid JSON. -/
inductive Payload where
  | notUtf8 : Payload
  | notJson : Payload
  | json : JValue → Payload

/-- Result of one `ViveDataReceiver.update` call: either the method returns
(new state, boolean return value, whether the invalid-data message was
printed), or an uncaught exception propagates out of it with the state it
left behind, killing the caller's loop. -/
inductive RecvOutcome where
  | returned : RecvState → Bool → Bool → RecvOutcome
  | crashed : RecvState → RecvOutcome

/-- The receiver state an update outcome leaves behind. -/
def RecvOutcome.state : RecvOutcome → RecvState
  | .returned st _ _ => st
  | .crashed st => st

/-- `ViveDataReceiver.update` (src/examples/custom_receiver.py lines 41-74)
applied to one received datagram.  `json.loads(data.decode())` is evaluated
before any assignment, so on either failure the state is untouched; but only
`json.JSONDecodeError` is handled (printing the message and falling through
to `return False`), while a `UnicodeDecodeError` from `data.decode()`
matches neither that handler nor the outer `except BlockingIOError` and
propagates uncaught out of `update`. -/
def receiver_update (st : RecvState) (payload : Payload) : RecvOutcome :=
  match payload with
  | .notUtf8 => .crashed st
  | .notJson => .returned st false true
  | .json d =>
      let st := { st with latest_data := some d }
      let st := { st with histL := recvHandStep d "left" st.histL }
      let st := { st with histR := recvHandStep d "right" st.histR }
      .returned st true false

/-- Initial state of `ViveDataReceiver` (`__init__`,
src/examples/custom_receiver.py lines 24-37). -/
def initRecvState : RecvState := ⟨none, ⟨[], [], []⟩, ⟨[], [], []⟩⟩

/-! ## Standalone receiver (`src/vive_receiver3.py`) -/

/-- Outcome of one iteration of `receive_controller_data`'s loop body for a
received datagram: the snapshot was displayed, the invalid-data message was
printed and the loop moved on, or an uncaught exception terminated the
loop. -/
inductive R3Out where
  | displayed : R3Out
  | invalidReported : R3Out
  | crashed : R3Out

/-- The guard of `receive_controller_data`'s loop, src/vive_receiver3.py
line 18: `while True:`. -/
def r3LoopGuard : Bool := true

/-- Per-datagram handling in `receive_controller_data`
(src/vive_receiver3.py lines 20-46): a payload that decodes as text but
fails JSON parsing is reported (`Received invalid data from ...`) and the
loop moves on to the next datagram; a payload that is not valid UTF-8 raises
`UnicodeDecodeError` in `data.decode()`, which the `json.JSONDecodeError`
handler does not catch, terminating the loop through the outer
`try`/`finally`; this receiver keeps no reconstructed state. -/
def r3HandleDatagram (payload : Payload) : R3Out :=
  match payload with
  | .notUtf8 => .crashed
  | .notJson => .invalidReported
  | .json _ => .displayed

/-! ## Rotation conversions over `ℝ`

`extract_rotation_euler` (src/main.py lines 19-32) and
`ViveControllerVisualizer.euler_to_rotation_matrix`
(src/vive_matplotlib_visualizer.py lines 401-430), modelled over the real
numbers (the idealization of the scripts' float arithmetic). -/

/-- `math.radians` / `np.radians`. -/
noncomputable def radians (x : ℝ) : ℝ := x * (Real.pi / 180)

/-- `math.degrees`. -/
noncomputable def degrees (x : ℝ) : ℝ := x * (180 / Real.pi)

/-- `math.atan2 y x`, modelled over `ℝ` as the argument of the complex
number `x + y*I` (the standard principal value in `(-π, π]`). -/
noncomputable def atan2 (y x : ℝ) : ℝ := Complex.arg (Complex.mk x y)

/-- Roll block of `euler_to_rotation_matrix`: rotation about the X axis. -/
noncomputable def R_x (r : ℝ) : Matrix (Fin 3) (Fin 3) ℝ :=
  !![1, 0, 0;
     0, Real.cos r, -Real.sin r;
     0, Real.sin r, Real.cos r]

/-- Pitch block of `euler_to_rotation_matrix`: rotation about the Y axis. -/
noncomputable def R_y (p : ℝ) : Matrix (Fin 3) (Fin 3) ℝ :=
  !![Real.cos p, 0, Real.sin p;
     0, 1, 0;
     -Real.sin p, 0, Real.cos p]

/-- Yaw block of `euler_to_rotation_matrix`: rotation about the Z axis. -/
noncomputable def R_z (y : ℝ) : Matrix (Fin 3) (Fin 3) ℝ :=
  !![Real.cos y, -Real.sin y, 0;
     Real.sin y, Real.cos y, 0;
     0, 0, 1]

/-- `ViveControllerVisualizer.euler_to_rotation_matrix`
(src/vive_matplotlib_visualizer.py lines 401-430): convert Euler angles in
degrees to radians and return `np.dot(R_z, np.dot(R_y, R_x))`. -/
noncomputable def euler_to_rotation_matrix (roll pitch yaw : ℝ) :
    Matrix (Fin 3) (Fin 3) ℝ :=
  R_z (radians yaw) * (R_y (radians pitch) * R_x (radians roll))

/-- `extract_rotation_euler` (src/main.py lines 19-32): extract Euler angles
in degrees from a rotation matrix, returned as `(roll, pitch, yaw)`.  The
source applies it to the 4x4 pose matrix but reads only row/column indices
0..2, so the rotation 3x3 block suffices. -/
noncomputable def extract_rotation_euler (m : Matrix (Fin 3) (Fin 3) ℝ) : ℝ × ℝ × ℝ :=
  let pitch := atan2 (-(m 2 0)) (Real.sqrt ((m 0 0) ^ 2 + (m 1 0) ^ 2))
  let yaw := atan2 (m 1 0) (m 0 0)
  let roll := atan2 (m 2 1) (m 2 2)
  (degrees roll, degrees pitch, degrees yaw)

/-! ## Claims -/

/-- C5: For every controller detected at startup, the snapshot entry for
that hand has a boolean `tracked` field that is true iff the SDK reports the
pose as valid for that frame, and when `tracked` is false the `position`,
`rotation`, `buttons` and `analog` sub-objects remain the empty objects they
were initialized to. -/
theorem c5_tracked_schema (h : SenderHandInput) :
    jGet (hand_entry h) "tracked" = some (.bool h.poseValid) ∧
    (h.poseValid = false →
      jGet (hand_entry h) "position" = some (.obj []) ∧
      jGet (hand_entry h) "rotation" = some (.obj []) ∧
      jGet (hand_entry h) "buttons" = some (.obj []) ∧
      jGet (hand_entry h) "analog" = some (.obj [])) := by
  obtain ⟨pv, px, py, pz, rl, pt, yw, res, bp, bt, ax⟩ := h
  cases pv <;> cases res
  · exact ⟨rfl, fun _ => ⟨rfl, rfl, rfl, rfl⟩⟩
  · exact ⟨rfl, fun _ => ⟨rfl, rfl, rfl, rfl⟩⟩
  · exact ⟨rfl, fun hc => by simp at hc⟩
  · exact ⟨rfl, fun hc => by simp at hc⟩

/-- C5 witness: evaluation at a concrete untracked entry. -/
theorem c5_tracked_schema_witness :
    jGet (hand_entry ⟨false, 1, 2, 3, 4, 5, 6, true, 7, 8, [(1, 2)]⟩) "tracked" =
      some (.bool false) ∧
    jGet (hand_entry ⟨false, 1, 2, 3, 4, 5, 6, true, 7, 8, [(1, 2)]⟩) "position" =
      some (.obj []) := by
  refine ⟨(c5_tracked_schema ⟨false, 1, 2, 3, 4, 5, 6, true, 7, 8, [(1, 2)]⟩).1, ?_⟩
  exact ((c5_tracked_schema ⟨false, 1, 2, 3, 4, 5, 6, true, 7, 8, [(1, 2)]⟩).2 rfl).1

/-- A concrete sender input used by witnesses: tracked, state read, two
axes. -/
def sampleInput : SenderHandInput :=
  ⟨true, 1, 2, 3, 4, 5, 6, true, 5, 9, [(1/2, 1/4), (3/4, 0)]⟩

/-- C3 counterexample: a snapshot built while the left controller was not
detected at startup (`controllers["left"] is None`) carries no `left`
entry, refuting the claim that every transmitted snapshot contains entries
for both controllers. -/
theorem c3_counterexample :
    ¬ ∀ (l r : Option SenderHandInput) (ts : ℚ),
      jHasKey (build_snapshot l r ts) "left" = true ∧
      jHasKey (build_snapshot l r ts) "right" = true := by
  intro hall
  have h1 := (hall none (some sampleInput) 0).1
  have h2 : jHasKey (build_snapshot none (some sampleInput) 0) "left" = false := rfl
  rw [h2] at h1
  exact Bool.noConfusion h1

/-- C3 (amended): every transmitted snapshot is one JSON object with an
entry for each controller that was detected at startup — `left` and `right`
are present exactly when the respective controller was detected — each such
entry capturing that controller's tracked state, position, rotation,
buttons and analog values, and the snapshot carries the timestamp. -/
theorem c3_snapshot_schema (l r : Option SenderHandInput) (ts : ℚ) :
    jHasKey (build_snapshot l r ts) "left" = l.isSome ∧
    jHasKey (build_snapshot l r ts) "right" = r.isSome ∧
    (∀ li, l = some li → jGet (build_snapshot l r ts) "left" = some (hand_entry li)) ∧
    (∀ ri, r = some ri → jGet (build_snapshot l r ts) "right" = some (hand_entry ri)) ∧
    jGet (build_snapshot l r ts) "timestamp" = some (.num ts) ∧
    (∀ hi : SenderHandInput,
      jHasKey (hand_entry hi) "tracked" = true ∧
      jHasKey (hand_entry hi) "position" = true ∧
      jHasKey (hand_entry hi) "rotation" = true ∧
      jHasKey (hand_entry hi) "buttons" = true ∧
      jHasKey (hand_entry hi) "analog" = true) := by
  have hfields : ∀ hi : SenderHandInput,
      jHasKey (hand_entry hi) "tracked" = true ∧
      jHasKey (hand_entry hi) "position" = true ∧
      jHasKey (hand_entry hi) "rotation" = true ∧
      jHasKey (hand_entry hi) "buttons" = true ∧
      jHasKey (hand_entry hi) "analog" = true := by
    intro hi
    obtain ⟨pv, px, py, pz, rl, pt, yw, res, bp, bt, ax⟩ := hi
    cases pv <;> cases res <;> exact ⟨rfl, rfl, rfl, rfl, rfl⟩
  cases l with
  | none =>
      cases r with
      | none =>
          exact ⟨rfl, rfl, fun li h => Option.noConfusion h,
                 fun ri h => Option.noConfusion h, rfl, hfields⟩
      | some b =>
          refine ⟨rfl, rfl, fun li h => Option.noConfusion h, fun ri h => ?_, rfl, hfields⟩
          cases h
          rfl
  | some a =>
      cases r with
      | none =>
          refine ⟨rfl, rfl, fun li h => ?_, fun ri h => Option.noConfusion h, rfl, hfields⟩
          cases h
          rfl
      | some b =>
          refine ⟨rfl, rfl, fun li h => ?_, fun ri h => ?_, rfl, hfields⟩
          · cases h
            rfl
          · cases h
            rfl

/-- C3 witness: evaluation at a snapshot with both controllers detected. -/
theorem c3_snapshot_schema_witness :
    jGet (build_snapshot (some sampleInput) (some sampleInput) 0) "left" =
      some (hand_entry sampleInput) ∧
    jGet (build_snapshot (some sampleInput) (some sampleInput) 0) "right" =
      some (hand_entry sampleInput) :=
  ⟨(c3_snapshot_schema (some sampleInput) (some sampleInput) 0).2.2.1 sampleInput rfl,
   (c3_snapshot_schema (some sampleInput) (some sampleInput) 0).2.2.2.1 sampleInput rfl⟩

/-- C10: the sender's analog reads are guarded: the trigger value comes from
axis index 1 only when more than one axis is present and is 0.0 otherwise,
and the trackpad x/y pair is read from axis 0 and included only when at
least one axis is present. -/
theorem c10_analog_guard (h : SenderHandInput)
    (hv : h.poseValid = true) (hr : h.result = true) :
    ∃ av, jGet (hand_entry h) "analog" = some (.obj av) ∧
      (h.state.rAxis.length ≤ 1 → lookupField av "trigger" = some (.num 0)) ∧
      (h.state.rAxis.length > 1 →
        lookupField av "trigger" = some (.num (h.state.rAxis.getD 1 (0, 0)).1)) ∧
      (h.state.rAxis.length = 0 → lookupField av "trackpad" = none) ∧
      (h.state.rAxis.length > 0 →
        lookupField av "trackpad" =
          some (.obj [("x", .num (h.state.rAxis.getD 0 (0, 0)).1),
                      ("y", .num (h.state.rAxis.getD 0 (0, 0)).2)])) := by
  obtain ⟨pv, px, py, pz, rl, pt, yw, res, bp, bt, ax⟩ := h
  cases hv
  cases hr
  match ax with
  | [] =>
      exact ⟨[("trigger", .num 0)], rfl, fun _ => rfl,
             fun hc => absurd hc (by simp), fun _ => rfl,
             fun hc => absurd hc (by simp)⟩
  | [a0] =>
      exact ⟨[("trigger", .num 0),
              ("trackpad", .obj [("x", .num a0.1), ("y", .num a0.2)])],
             rfl, fun _ => rfl, fun hc => absurd hc (by simp),
             fun hc => by simp at hc, fun _ => rfl⟩
  | a0 :: a1 :: rest =>
      have hlen1 : (a0 :: a1 :: rest : List (ℚ × ℚ)).length > 1 := by simp
      have hlen0 : (a0 :: a1 :: rest : List (ℚ × ℚ)).length > 0 := by simp
      refine ⟨[("trigger", .num a1.1),
               ("trackpad", .obj [("x", .num a0.1), ("y", .num a0.2)])],
              ?_,
              fun hc => by simp only [List.length_cons] at hc; omega,
              fun _ => rfl,
              fun hc => by simp at hc,
              fun _ => rfl⟩
      simp only [hand_entry, if_pos hlen1, if_pos hlen0]
      rfl

/-- C10 witness: evaluation at a concrete controller state with two axes. -/
theorem c10_analog_guard_witness :
    ∃ av, jGet (hand_entry sampleInput) "analog" = some (.obj av) ∧
      (sampleInput.state.rAxis.length > 1 →
        lookupField av "trigger" = some (.num (sampleInput.state.rAxis.getD 1 (0, 0)).1)) := by
  obtain ⟨av, h1, _, h3, _, _⟩ := c10_analog_guard sampleInput rfl rfl
  exact ⟨av, h1, h3⟩

/-- The sender's polling loop never exits through its guard and sends one
snapshot per iteration, for any fuel, iteration counter and accumulator. -/
theorem runSenderLoop_unbounded
    (env : Nat → Option SenderHandInput × Option SenderHandInput × ℚ) :
    ∀ (fuel n : Nat) (acc : List JValue),
      (runSenderLoop env fuel n acc).terminated = false ∧
      (runSenderLoop env fuel n acc).sent.length = acc.length + fuel := by
  intro fuel
  induction fuel with
  | zero =>
      intro n acc
      simp [runSenderLoop]
  | succ f ih =>
      intro n acc
      rcases henv : env n with ⟨l, r, ts⟩
      have h := ih (n + 1) (build_snapshot l r ts :: acc)
      rw [runSenderLoop]
      simp only [senderLoopGuard, if_true, henv]
      refine ⟨h.1, ?_⟩
      rw [h.2]
      simp
      omega

/-- C4 counterexample: the sampling/serialize/transmit loop of
`get_controller_info` is `while True:`; run on a concrete environment, no
amount of fuel makes it terminate through its guard, refuting the claim
that it executes a bounded number of iterations. -/
theorem c4_counterexample :
    ¬ ∃ fuel : Nat,
      (runSenderLoop (fun _ => (none, none, 0)) fuel 0 []).terminated = true := by
  rintro ⟨fuel, hterm⟩
  rw [(runSenderLoop_unbounded (fun _ => (none, none, 0)) fuel 0 []).1] at hterm
  exact Bool.noConfusion hterm

/-- C4 (amended): the sender's polling loop is unbounded: its guard is the
constant `True`, so it never terminates without external interruption
(`KeyboardInterrupt`), and it samples, serializes and transmits one snapshot
per iteration. -/
theorem c4_loop_unbounded
    (env : Nat → Option SenderHandInput × Option SenderHandInput × ℚ) (fuel : Nat) :
    senderLoopGuard = true ∧
    (runSenderLoop env fuel 0 []).terminated = false ∧
    (runSenderLoop env fuel 0 []).sent.length = fuel := by
  have h := runSenderLoop_unbounded env fuel 0 []
  exact ⟨rfl, h.1, by simpa using h.2⟩

/-- C7 counterexample: a datagram whose payload is not valid UTF-8 is not
valid JSON either, yet `data.decode()` raises `UnicodeDecodeError`, which
neither receiver's `except json.JSONDecodeError` handler catches: the
exception propagates uncaught instead of print-and-continue, refuting the
claim for every not-valid-JSON datagram. -/
theorem c7_counterexample :
    ¬ ∀ (st : RecvState) (p : Payload), (∀ d, p ≠ Payload.json d) →
      receiver_update st p = .returned st false true ∧
      r3HandleDatagram p = R3Out.invalidReported := by
  intro hall
  have h := (hall initRecvState .notUtf8 (fun d hd => Payload.noConfusion hd)).1
  exact RecvOutcome.noConfusion h

/-- C7 (amended): decoding is best-effort and error-atomic for text
payloads: a datagram whose payload decodes as UTF-8 text but fails JSON
parsing makes `ViveDataReceiver.update` report the error and return `False`
with its reconstructed state (latest snapshot and position histories)
untouched, and makes `receive_controller_data` report the error while its
`while True` loop continues with the next datagram; a datagram whose
payload is not valid UTF-8 instead raises an uncaught `UnicodeDecodeError`
that terminates each receiver, still with the state untouched. -/
theorem c7_decode_error_atomic :
    (∀ st : RecvState, receiver_update st .notJson = .returned st false true) ∧
    r3HandleDatagram .notJson = R3Out.invalidReported ∧
    r3LoopGuard = true ∧
    (∀ st : RecvState, receiver_update st .notUtf8 = .crashed st) ∧
    r3HandleDatagram .notUtf8 = R3Out.crashed :=
  ⟨fun _ => rfl, rfl, rfl, fun _ => rfl, rfl⟩

/-- `stepTracked` only assigns the tracked attribute. -/
theorem stepTracked_eq (hd : JValue) (h : VizHand) :
    stepTracked hd h =
      { h with tracked := (jGet hd "tracked").getD (.bool false) } := rfl

/-- `stepButtons` leaves tracked, position, rotation and the trails alone. -/
theorem stepButtons_frame (hd : JValue) (h : VizHand) :
    (stepButtons hd h).tracked = h.tracked ∧
    (stepButtons hd h).position = h.position ∧
    (stepButtons hd h).rotation = h.rotation ∧
    (stepButtons hd h).trail_x = h.trail_x ∧
    (stepButtons hd h).trail_y = h.trail_y ∧
    (stepButtons hd h).trail_z = h.trail_z := by
  unfold stepButtons
  split
  · split <;> exact ⟨rfl, rfl, rfl, rfl, rfl, rfl⟩
  · exact ⟨rfl, rfl, rfl, rfl, rfl, rfl⟩

/-- With no buttons entry, `stepButtons` is the identity. -/
theorem stepButtons_none (hd : JValue) (h : VizHand)
    (h1 : jGet hd "buttons" = none) : stepButtons hd h = h := by
  unfold stepButtons
  rw [h1]

/-- With a buttons entry present, `stepButtons` stores it. -/
theorem stepButtons_buttons (hd : JValue) (h : VizHand) (bv : JValue)
    (h1 : jGet hd "buttons" = some bv) : (stepButtons hd h).buttons = bv := by
  simp only [stepButtons, h1]
  split <;> rfl

/-- Bool-encoded trigger: the flag is set to that boolean. -/
theorem stepButtons_trigger_bool (hd : JValue) (h : VizHand) (bv : JValue) (b : Bool)
    (h1 : jGet hd "buttons" = some bv) (h2 : jGet bv "trigger" = some (.bool b)) :
    (stepButtons hd h).trigger_pressed = .bool b := by
  simp only [stepButtons, h1, h2]

/-- Dict-encoded trigger: the flag is set to the `pressed` field, with a
false default. -/
theorem stepButtons_trigger_dict (hd : JValue) (h : VizHand) (bv : JValue)
    (d : List (String × JValue))
    (h1 : jGet hd "buttons" = some bv) (h2 : jGet bv "trigger" = some (.obj d)) :
    (stepButtons hd h).trigger_pressed = (lookupField d "pressed").getD (.bool false) := by
  simp only [stepButtons, h1, h2]

/-- `stepPosition` leaves tracked, buttons, the trigger flag and rotation
alone. -/
theorem stepPosition_frame (m : Nat) (hd : JValue) (h : VizHand) (mm : MinMax) :
    (stepPosition m hd h mm).1.tracked = h.tracked ∧
    (stepPosition m hd h mm).1.buttons = h.buttons ∧
    (stepPosition m hd h mm).1.trigger_pressed = h.trigger_pressed ∧
    (stepPosition m hd h mm).1.rotation = h.rotation := by
  unfold stepPosition
  split
  · split
    · split <;> exact ⟨rfl, rfl, rfl, rfl⟩
    · exact ⟨rfl, rfl, rfl, rfl⟩
  · exact ⟨rfl, rfl, rfl, rfl⟩

/-- `stepRotation` leaves everything but rotation alone. -/
theorem stepRotation_frame (hd : JValue) (h : VizHand) :
    (stepRotation hd h).tracked = h.tracked ∧
    (stepRotation hd h).position = h.position ∧
    (stepRotation hd h).buttons = h.buttons ∧
    (stepRotation hd h).trigger_pressed = h.trigger_pressed ∧
    (stepRotation hd h).trail_x = h.trail_x ∧
    (stepRotation hd h).trail_y = h.trail_y ∧
    (stepRotation hd h).trail_z = h.trail_z := by
  unfold stepRotation
  split
  · split <;> exact ⟨rfl, rfl, rfl, rfl, rfl, rfl, rfl⟩
  · exact ⟨rfl, rfl, rfl, rfl, rfl, rfl, rfl⟩

/-- With an analog trigger value present, `stepAnalog` overrides the trigger
flag with the threshold comparison. -/
theorem stepAnalog_some (hd : JValue) (h : VizHand) (a : ℚ)
    (h1 : analogTriggerOf hd = some a) :
    (stepAnalog hd h).trigger_pressed = .bool (decide ((0.5 : ℚ) < a)) := by
  unfold stepAnalog
  rw [h1]

/-- Without an analog trigger value, `stepAnalog` is the identity. -/
theorem stepAnalog_none (hd : JValue) (h : VizHand)
    (h1 : analogTriggerOf hd = none) : stepAnalog hd h = h := by
  unfold stepAnalog
  rw [h1]

/-- `stepAnalog` leaves everything but the trigger flag alone. -/
theorem stepAnalog_frame (hd : JValue) (h : VizHand) :
    (stepAnalog hd h).tracked = h.tracked ∧
    (stepAnalog hd h).position = h.position ∧
    (stepAnalog hd h).buttons = h.buttons ∧
    (stepAnalog hd h).rotation = h.rotation ∧
    (stepAnalog hd h).trail_x = h.trail_x ∧
    (stepAnalog hd h).trail_y = h.trail_y ∧
    (stepAnalog hd h).trail_z = h.trail_z := by
  unfold stepAnalog
  split <;> exact ⟨rfl, rfl, rfl, rfl, rfl, rfl, rfl⟩

/-- The tracked value tested by `update_controller_hand`'s guard. -/
theorem stepButtons_stepTracked_tracked (hd : JValue) (h : VizHand) :
    (stepButtons hd (stepTracked hd h)).tracked =
      (jGet hd "tracked").getD (.bool false) := by
  rw [(stepButtons_frame hd (stepTracked hd h)).1]
  rfl

/-- Shape of `update_controller_hand` when the tracked value is truthy. -/
theorem update_controller_hand_tracked (m : Nat) (hd : JValue) (h : VizHand) (mm : MinMax)
    (htr : jTruthy ((jGet hd "tracked").getD (.bool false)) = true) :
    update_controller_hand m hd h mm =
      (stepAnalog hd (stepRotation hd
         (stepPosition m hd (stepButtons hd (stepTracked hd h)) mm).1),
       (stepPosition m hd (stepButtons hd (stepTracked hd h)) mm).2) := by
  simp [update_controller_hand, stepButtons_stepTracked_tracked, htr]

/-- First component of `update_controller_hand` in the tracked case. -/
theorem update_controller_hand_tracked_fst (m : Nat) (hd : JValue) (h : VizHand) (mm : MinMax)
    (htr : jTruthy ((jGet hd "tracked").getD (.bool false)) = true) :
    (update_controller_hand m hd h mm).1 =
      stepAnalog hd (stepRotation hd
        (stepPosition m hd (stepButtons hd (stepTracked hd h)) mm).1) := by
  rw [update_controller_hand_tracked m hd h mm htr]

/-- Second component of `update_controller_hand` in the tracked case. -/
theorem update_controller_hand_tracked_snd (m : Nat) (hd : JValue) (h : VizHand) (mm : MinMax)
    (htr : jTruthy ((jGet hd "tracked").getD (.bool false)) = true) :
    (update_controller_hand m hd h mm).2 =
      (stepPosition m hd (stepButtons hd (stepTracked hd h)) mm).2 := by
  rw [update_controller_hand_tracked m hd h mm htr]

/-- Shape of `update_controller_hand` when the tracked value is falsy. -/
theorem update_controller_hand_untracked (m : Nat) (hd : JValue) (h : VizHand) (mm : MinMax)
    (htr : jTruthy ((jGet hd "tracked").getD (.bool false)) = false) :
    update_controller_hand m hd h mm = (stepButtons hd (stepTracked hd h), mm) := by
  simp [update_controller_hand, stepButtons_stepTracked_tracked, htr]

/-- First component of `update_controller_hand` in the untracked case. -/
theorem update_controller_hand_untracked_fst (m : Nat) (hd : JValue) (h : VizHand) (mm : MinMax)
    (htr : jTruthy ((jGet hd "tracked").getD (.bool false)) = false) :
    (update_controller_hand m hd h mm).1 = stepButtons hd (stepTracked hd h) := by
  rw [update_controller_hand_untracked m hd h mm htr]

/-- Second component of `update_controller_hand` in the untracked case. -/
theorem update_controller_hand_untracked_snd (m : Nat) (hd : JValue) (h : VizHand) (mm : MinMax)
    (htr : jTruthy ((jGet hd "tracked").getD (.bool false)) = false) :
    (update_controller_hand m hd h mm).2 = mm := by
  rw [update_controller_hand_untracked m hd h mm htr]

/-- C1: for every received snapshot entry and each hand, the visualizer
resolves the trigger-pressed state across the two alternate encodings: a
bool-valued `trigger` button entry sets the flag to that boolean; a
dict-valued one sets it to its `pressed` field, defaulting to false; and
when the hand is additionally marked tracked and the snapshot carries an
analog trigger value, the final flag equals the comparison of that value
against 0.5, overriding the button-derived value. -/
theorem c1_trigger_resolution (m : Nat) (hd : JValue) (h : VizHand) (mm : MinMax) :
    (∀ a : ℚ, jTruthy ((jGet hd "tracked").getD (.bool false)) = true →
      analogTriggerOf hd = some a →
      (update_controller_hand m hd h mm).1.trigger_pressed =
        .bool (decide ((0.5 : ℚ) < a))) ∧
    (jTruthy ((jGet hd "tracked").getD (.bool false)) = false ∨ analogTriggerOf hd = none →
      (∀ bv b, jGet hd "buttons" = some bv → jGet bv "trigger" = some (.bool b) →
        (update_controller_hand m hd h mm).1.trigger_pressed = .bool b) ∧
      (∀ bv d, jGet hd "buttons" = some bv → jGet bv "trigger" = some (.obj d) →
        (update_controller_hand m hd h mm).1.trigger_pressed =
          (lookupField d "pressed").getD (.bool false))) := by
  constructor
  · intro a htr hana
    rw [update_controller_hand_tracked_fst m hd h mm htr]
    exact stepAnalog_some hd _ a hana
  · intro hno
    cases hbt : jTruthy ((jGet hd "tracked").getD (.bool false)) with
    | false =>
        rw [update_controller_hand_untracked_fst m hd h mm hbt]
        exact ⟨fun bv b h1 h2 => stepButtons_trigger_bool hd _ bv b h1 h2,
               fun bv d h1 h2 => stepButtons_trigger_dict hd _ bv d h1 h2⟩
    | true =>
        have hana : analogTriggerOf hd = none := by
          rcases hno with hfalse | hnone
          · rw [hbt] at hfalse
            exact absurd hfalse (by simp)
          · exact hnone
        rw [update_controller_hand_tracked_fst m hd h mm hbt]
        rw [stepAnalog_none hd _ hana,
            (stepRotation_frame hd _).2.2.2.1,
            (stepPosition_frame m hd _ mm).2.2.1]
        exact ⟨fun bv b h1 h2 => stepButtons_trigger_bool hd _ bv b h1 h2,
               fun bv d h1 h2 => stepButtons_trigger_dict hd _ bv d h1 h2⟩

/-- Concrete hand entry used by the C1 witness: tracked, analog trigger
three quarters. -/
def sampleTrackedEntry : JValue :=
  .obj [("tracked", .bool true), ("analog", .obj [("trigger", .num (3/4))])]

/-- C1 witness: evaluation at a tracked hand entry whose analog trigger is
3/4, which overrides the trigger flag to the threshold comparison. -/
theorem c1_trigger_resolution_witness :
    (update_controller_hand 50 sampleTrackedEntry initVizHand initMinMax).1.trigger_pressed =
      .bool (decide ((0.5 : ℚ) < (3/4 : ℚ))) :=
  (c1_trigger_resolution 50 sampleTrackedEntry initVizHand initMinMax).1 (3/4) rfl rfl

/-- C9: when a received snapshot marks a hand as not tracked, the update
still replaces that hand's button states (and the trigger flag derived from
the button encoding) when a buttons object is present, but leaves the
stored position, rotation, position trail and scaling bounds unchanged. -/
theorem c9_untracked_update (m : Nat) (hd : JValue) (h : VizHand) (mm : MinMax)
    (hnt : jTruthy ((jGet hd "tracked").getD (.bool false)) = false) :
    (update_controller_hand m hd h mm).1.position = h.position ∧
    (update_controller_hand m hd h mm).1.rotation = h.rotation ∧
    (update_controller_hand m hd h mm).1.trail_x = h.trail_x ∧
    (update_controller_hand m hd h mm).1.trail_y = h.trail_y ∧
    (update_controller_hand m hd h mm).1.trail_z = h.trail_z ∧
    (update_controller_hand m hd h mm).2 = mm ∧
    (∀ bv, jGet hd "buttons" = some bv →
      (update_controller_hand m hd h mm).1.buttons = bv) ∧
    (∀ bv b, jGet hd "buttons" = some bv → jGet bv "trigger" = some (.bool b) →
      (update_controller_hand m hd h mm).1.trigger_pressed = .bool b) ∧
    (∀ bv d, jGet hd "buttons" = some bv → jGet bv "trigger" = some (.obj d) →
      (update_controller_hand m hd h mm).1.trigger_pressed =
        (lookupField d "pressed").getD (.bool false)) := by
  have hfst := update_controller_hand_untracked_fst m hd h mm hnt
  have hsnd := update_controller_hand_untracked_snd m hd h mm hnt
  refine ⟨?_, ?_, ?_, ?_, ?_, hsnd, ?_, ?_, ?_⟩
  · rw [hfst]
    exact (stepButtons_frame hd _).2.1
  · rw [hfst]
    exact (stepButtons_frame hd _).2.2.1
  · rw [hfst]
    exact (stepButtons_frame hd _).2.2.2.1
  · rw [hfst]
    exact (stepButtons_frame hd _).2.2.2.2.1
  · rw [hfst]
    exact (stepButtons_frame hd _).2.2.2.2.2
  · intro bv h1
    rw [hfst]
    exact stepButtons_buttons hd _ bv h1
  · intro bv b h1 h2
    rw [hfst]
    exact stepButtons_trigger_bool hd _ bv b h1 h2
  · intro bv d h1 h2
    rw [hfst]
    exact stepButtons_trigger_dict hd _ bv d h1 h2

/-- Concrete hand entry used by the C9 witness: untracked but carrying a
buttons object and a position. -/
def sampleUntrackedEntry : JValue :=
  .obj [("tracked", .bool false),
        ("buttons", .obj [("trigger", .bool true)]),
        ("position", .obj [("x", .num 5), ("y", .num 6), ("z", .num 7)])]

/-- C9 witness: evaluation at an untracked hand entry: position stays, the
button-encoded trigger state is taken. -/
theorem c9_untracked_update_witness :
    (update_controller_hand 50 sampleUntrackedEntry initVizHand initMinMax).1.position =
      initVizHand.position ∧
    (update_controller_hand 50 sampleUntrackedEntry initVizHand initMinMax).1.trigger_pressed =
      .bool true := by
  have h := c9_untracked_update 50 sampleUntrackedEntry initVizHand initMinMax rfl
  exact ⟨h.1, h.2.2.2.2.2.2.2.1 (.obj [("trigger", .bool true)]) true rfl rfl⟩

/-- A deque append never exceeds the configured bound. -/
theorem dequeAppend_length_le (m : Nat) (xs : List ℚ) (x : ℚ) :
    (dequeAppend m xs x).length ≤ m := by
  simp only [dequeAppend]
  split
  · simp only [List.length_drop]
    omega
  · next hle =>
      simp only [List.length_append, List.length_cons, List.length_nil] at hle ⊢
      omega

/-- Appending to a full deque discards the oldest entry. -/
theorem dequeAppend_full (m : Nat) (xs : List ℚ) (x : ℚ) (hfull : xs.length = m) :
    dequeAppend m xs x = (xs ++ [x]).drop 1 := by
  unfold dequeAppend
  have hlen : (xs ++ [x]).length = m + 1 := by simp [hfull]
  rw [if_pos (by omega)]
  have hdrop : (xs ++ [x]).length - m = 1 := by omega
  rw [hdrop]

/-- The three trail deques of a visualizer hand are within the bound. -/
def trailsBounded (m : Nat) (h : VizHand) : Prop :=
  h.trail_x.length ≤ m ∧ h.trail_y.length ≤ m ∧ h.trail_z.length ≤ m

/-- `stepPosition` keeps the trails within the bound. -/
theorem stepPosition_trailsBounded (m : Nat) (hd : JValue) (h : VizHand) (mm : MinMax)
    (hb : trailsBounded m h) : trailsBounded m (stepPosition m hd h mm).1 := by
  unfold stepPosition
  split
  · split
    · split
      · exact ⟨dequeAppend_length_le m _ _, dequeAppend_length_le m _ _,
               dequeAppend_length_le m _ _⟩
      · exact hb
    · exact hb
  · exact hb

/-- `update_controller_hand` keeps the trails within the bound. -/
theorem update_controller_hand_trailsBounded (m : Nat) (hd : JValue) (h : VizHand)
    (mm : MinMax) (hb : trailsBounded m h) :
    trailsBounded m (update_controller_hand m hd h mm).1 := by
  cases hbt : jTruthy ((jGet hd "tracked").getD (.bool false)) with
  | false =>
      rw [update_controller_hand_untracked_fst m hd h mm hbt]
      have hf := stepButtons_frame hd (stepTracked hd h)
      exact ⟨hf.2.2.2.1 ▸ hb.1, hf.2.2.2.2.1 ▸ hb.2.1, hf.2.2.2.2.2 ▸ hb.2.2⟩
  | true =>
      rw [update_controller_hand_tracked_fst m hd h mm hbt]
      have ha := stepAnalog_frame hd (stepRotation hd
        (stepPosition m hd (stepButtons hd (stepTracked hd h)) mm).1)
      have hr := stepRotation_frame hd
        (stepPosition m hd (stepButtons hd (stepTracked hd h)) mm).1
      have hbf := stepButtons_frame hd (stepTracked hd h)
      have hb2 : trailsBounded m (stepButtons hd (stepTracked hd h)) :=
        ⟨hbf.2.2.2.1 ▸ hb.1, hbf.2.2.2.2.1 ▸ hb.2.1, hbf.2.2.2.2.2 ▸ hb.2.2⟩
      have hp := stepPosition_trailsBounded m hd (stepButtons hd (stepTracked hd h)) mm hb2
      exact ⟨ha.2.2.2.2.1 ▸ (hr.2.2.2.2.1 ▸ hp.1),
             ha.2.2.2.2.2.1 ▸ (hr.2.2.2.2.2.1 ▸ hp.2.1),
             ha.2.2.2.2.2.2 ▸ (hr.2.2.2.2.2.2 ▸ hp.2.2)⟩

/-- `update_controller_data` keeps both hands' trails within the bound. -/
theorem update_controller_data_trailsBounded (m : Nat) (data : JValue) (s : VizState)
    (hl : trailsBounded m s.left) (hr : trailsBounded m s.right) :
    trailsBounded m (update_controller_data m data s).left ∧
    trailsBounded m (update_controller_data m data s).right := by
  unfold update_controller_data
  split
  · split
    · split
      · exact ⟨update_controller_hand_trailsBounded m _ _ _ hl,
               update_controller_hand_trailsBounded m _ _ _ hr⟩
      · exact ⟨update_controller_hand_trailsBounded m _ _ _ hl, hr⟩
    · split
      · exact ⟨hl, update_controller_hand_trailsBounded m _ _ _ hr⟩
      · exact ⟨hl, hr⟩
  · exact ⟨hl, hr⟩

/-- Shape invariant of the custom receiver's per-hand history: the three
per-axis lists move in lockstep and stay within `max_history`. -/
def histWF (hh : HandHist) : Prop :=
  hh.hy.length = hh.hx.length ∧ hh.hz.length = hh.hx.length ∧
  hh.hx.length ≤ maxHistory

/-- `histAppend` preserves the history invariant. -/
theorem histAppend_WF (hh : HandHist) (x y z : ℚ) (hwf : histWF hh) :
    histWF (histAppend hh x y z) := by
  obtain ⟨h1, h2, h3⟩ := hwf
  simp only [histAppend]
  split
  · next hgt =>
      simp only [List.length_append, List.length_cons, List.length_nil] at hgt
      refine ⟨?_, ?_, ?_⟩ <;>
        simp only [takeLast, List.length_drop, List.length_append,
          List.length_cons, List.length_nil] <;>
        omega
  · next hle =>
      simp only [List.length_append, List.length_cons, List.length_nil] at hle
      refine ⟨?_, ?_, ?_⟩ <;>
        simp only [List.length_append, List.length_cons, List.length_nil] <;>
        omega

/-- `recvHandStep` preserves the history invariant. -/
theorem recvHandStep_WF (d : JValue) (hand : String) (hh : HandHist)
    (hwf : histWF hh) : histWF (recvHandStep d hand hh) := by
  simp only [recvHandStep]
  split
  · split <;> first
      | exact histAppend_WF hh _ _ _ hwf
      | exact hwf
  · exact hwf

/-- C6: the receiver-side history buffers are bounded.  The visualizer's
trail deques stay within `max_trail_points` across any update and a full
deque discards its oldest entry on append; the custom receiver's per-axis
lists stay within `max_history = 100` across any update, and when the x-list
is full the appended-and-trimmed x-list drops the oldest entry. -/
theorem c6_history_bounded :
    (∀ (m : Nat) (xs : List ℚ) (x : ℚ), (dequeAppend m xs x).length ≤ m) ∧
    (∀ (m : Nat) (xs : List ℚ) (x : ℚ), xs.length = m →
      dequeAppend m xs x = (xs ++ [x]).drop 1) ∧
    (∀ (m : Nat) (data : JValue) (s : VizState),
      trailsBounded m s.left → trailsBounded m s.right →
      trailsBounded m (update_controller_data m data s).left ∧
      trailsBounded m (update_controller_data m data s).right) ∧
    (∀ (st : RecvState) (payload : Payload),
      histWF st.histL → histWF st.histR →
      histWF (receiver_update st payload).state.histL ∧
      histWF (receiver_update st payload).state.histR) ∧
    (∀ (hh : HandHist) (x y z : ℚ), hh.hx.length = maxHistory →
      (histAppend hh x y z).hx = (hh.hx ++ [x]).drop 1) := by
  refine ⟨dequeAppend_length_le, dequeAppend_full, update_controller_data_trailsBounded,
          ?_, ?_⟩
  · intro st payload hl hr
    cases payload with
    | notUtf8 => exact ⟨hl, hr⟩
    | notJson => exact ⟨hl, hr⟩
    | json d => exact ⟨recvHandStep_WF d "left" st.histL hl,
                       recvHandStep_WF d "right" st.histR hr⟩
  · intro hh x y z hfull
    unfold histAppend
    have hlen : (hh.hx ++ [x]).length = maxHistory + 1 := by simp [hfull]
    rw [if_pos (by omega)]
    show takeLast maxHistory (hh.hx ++ [x]) = (hh.hx ++ [x]).drop 1
    unfold takeLast
    have hdrop : (hh.hx ++ [x]).length - maxHistory = 1 := by omega
    rw [hdrop]

/-- C6 witness: evaluation at a full one-element deque and a full receiver
history. -/
theorem c6_history_bounded_witness :
    dequeAppend 1 [0] 1 = ([(0 : ℚ)] ++ [1]).drop 1 ∧
    trailsBounded 50 (update_controller_data 50 sampleUntrackedEntry initVizState).left :=
  ⟨c6_history_bounded.2.1 1 [0] 1 rfl,
   (c6_history_bounded.2.2.1 50 sampleUntrackedEntry initVizState
     ⟨by simp [initVizState, initVizHand], by simp [initVizState, initVizHand],
      by simp [initVizState, initVizHand]⟩
     ⟨by simp [initVizState, initVizHand], by simp [initVizState, initVizHand],
      by simp [initVizState, initVizHand]⟩).1⟩

/-- `mm2` widens `mm1`: every minimum is no larger and every maximum no
smaller. -/
def mmExtends (mm2 mm1 : MinMax) : Prop :=
  mm2.min_x ≤ mm1.min_x ∧ mm1.max_x ≤ mm2.max_x ∧
  mm2.min_y ≤ mm1.min_y ∧ mm1.max_y ≤ mm2.max_y ∧
  mm2.min_z ≤ mm1.min_z ∧ mm1.max_z ≤ mm2.max_z

theorem mmExtends_refl (mm : MinMax) : mmExtends mm mm :=
  ⟨le_refl _, le_refl _, le_refl _, le_refl _, le_refl _, le_refl _⟩

theorem mmExtends_trans {c b a : MinMax} (h1 : mmExtends c b) (h2 : mmExtends b a) :
    mmExtends c a :=
  ⟨h1.1.trans h2.1, h2.2.1.trans h1.2.1,
   h1.2.2.1.trans h2.2.2.1, h2.2.2.2.1.trans h1.2.2.2.1,
   h1.2.2.2.2.1.trans h2.2.2.2.2.1, h2.2.2.2.2.2.trans h1.2.2.2.2.2⟩

/-- Each bound moves only outward in `stepPosition`. -/
theorem stepPosition_mmExtends (m : Nat) (hd : JValue) (h : VizHand) (mm : MinMax) :
    mmExtends (stepPosition m hd h mm).2 mm := by
  unfold stepPosition
  split
  · split
    · split
      · exact ⟨min_le_left _ _, le_max_left _ _, min_le_left _ _, le_max_left _ _,
               min_le_left _ _, le_max_left _ _⟩
      · exact mmExtends_refl mm
    · exact mmExtends_refl mm
  · exact mmExtends_refl mm

/-- Each bound moves only outward in `update_controller_hand`. -/
theorem update_controller_hand_mmExtends (m : Nat) (hd : JValue) (h : VizHand)
    (mm : MinMax) : mmExtends (update_controller_hand m hd h mm).2 mm := by
  cases hbt : jTruthy ((jGet hd "tracked").getD (.bool false)) with
  | false =>
      rw [update_controller_hand_untracked_snd m hd h mm hbt]
      exact mmExtends_refl mm
  | true =>
      rw [update_controller_hand_tracked_snd m hd h mm hbt]
      exact stepPosition_mmExtends m hd _ mm

/-- Each bound moves only outward in `update_controller_data`. -/
theorem update_controller_data_mmExtends (m : Nat) (data : JValue) (s : VizState) :
    mmExtends (update_controller_data m data s).mm s.mm := by
  unfold update_controller_data
  split
  · split
    · split
      · exact mmExtends_trans (update_controller_hand_mmExtends m _ _ _)
          (update_controller_hand_mmExtends m _ _ _)
      · exact update_controller_hand_mmExtends m _ _ _
    · split
      · exact update_controller_hand_mmExtends m _ _ _
      · exact mmExtends_refl _
  · exact mmExtends_refl _

/-- Well-formed auto-scaling bounds: each minimum at most its maximum. -/
def mmWF (mm : MinMax) : Prop :=
  mm.min_x ≤ mm.max_x ∧ mm.min_y ≤ mm.max_y ∧ mm.min_z ≤ mm.max_z

/-- `stepPosition` preserves well-formed bounds. -/
theorem stepPosition_mmWF (m : Nat) (hd : JValue) (h : VizHand) (mm : MinMax)
    (hwf : mmWF mm) : mmWF (stepPosition m hd h mm).2 := by
  unfold stepPosition
  split
  · split
    · split
      · exact ⟨(min_le_right _ _).trans (le_max_right _ _),
               (min_le_right _ _).trans (le_max_right _ _),
               (min_le_right _ _).trans (le_max_right _ _)⟩
      · exact hwf
    · exact hwf
  · exact hwf

/-- `update_controller_hand` preserves well-formed bounds. -/
theorem update_controller_hand_mmWF (m : Nat) (hd : JValue) (h : VizHand)
    (mm : MinMax) (hwf : mmWF mm) : mmWF (update_controller_hand m hd h mm).2 := by
  cases hbt : jTruthy ((jGet hd "tracked").getD (.bool false)) with
  | false =>
      rw [update_controller_hand_untracked_snd m hd h mm hbt]
      exact hwf
  | true =>
      rw [update_controller_hand_tracked_snd m hd h mm hbt]
      exact stepPosition_mmWF m hd _ mm hwf

/-- Unpack a successful `handRecords` guard. -/
theorem handRecords_elim (hd : JValue) (hrec : handRecords hd = true) :
    jTruthy ((jGet hd "tracked").getD (.bool false)) = true ∧
    ∃ pv x y z, jGet hd "position" = some pv ∧
      (jHasKey pv "x" && jHasKey pv "y" && jHasKey pv "z") = true ∧
      getNum (jGet pv "x") = some x ∧ getNum (jGet pv "y") = some y ∧
      getNum (jGet pv "z") = some z := by
  unfold handRecords at hrec
  rw [Bool.and_eq_true] at hrec
  obtain ⟨htr, hrest⟩ := hrec
  refine ⟨htr, ?_⟩
  cases hp : jGet hd "position" with
  | none =>
      rw [hp] at hrest
      exact Bool.noConfusion hrest
  | some pv =>
      rw [hp] at hrest
      simp only [Bool.and_eq_true] at hrest
      obtain ⟨⟨⟨⟨⟨hkx, hky⟩, hkz⟩, hnx⟩, hny⟩, hnz⟩ := hrest
      obtain ⟨x, hx⟩ := Option.isSome_iff_exists.mp hnx
      obtain ⟨y, hy⟩ := Option.isSome_iff_exists.mp hny
      obtain ⟨z, hz⟩ := Option.isSome_iff_exists.mp hnz
      have hkk : (jHasKey pv "x" && jHasKey pv "y" && jHasKey pv "z") = true := by
        rw [Bool.and_eq_true, Bool.and_eq_true]
        exact ⟨⟨hkx, hky⟩, hkz⟩
      exact ⟨pv, x, y, z, rfl, hkk, hx, hy, hz⟩

/-- A recorded position makes the new bounds bracket the coordinates. -/
theorem stepPosition_record_mmWF (m : Nat) (hd : JValue) (h : VizHand) (mm : MinMax)
    (hrec : handRecords hd = true) : mmWF (stepPosition m hd h mm).2 := by
  obtain ⟨htr, pv, x, y, z, hp, hk, hx, hy, hz⟩ := handRecords_elim hd hrec
  simp only [stepPosition, hp, hk, hx, hy, hz]
  exact ⟨(min_le_right _ _).trans (le_max_right _ _),
         (min_le_right _ _).trans (le_max_right _ _),
         (min_le_right _ _).trans (le_max_right _ _)⟩

/-- `update_controller_hand` on a recording entry leaves well-formed
bounds. -/
theorem update_controller_hand_record_mmWF (m : Nat) (hd : JValue) (h : VizHand)
    (mm : MinMax) (hrec : handRecords hd = true) :
    mmWF (update_controller_hand m hd h mm).2 := by
  have htr := (handRecords_elim hd hrec).1
  rw [update_controller_hand_tracked_snd m hd h mm htr]
  exact stepPosition_record_mmWF m hd _ mm hrec

/-- `update_controller_data` with a recording snapshot leaves well-formed
bounds, whatever they were before. -/
theorem update_controller_data_record_mmWF (m : Nat) (data : JValue) (s : VizState)
    (hrec : recordedPosition data = true) :
    mmWF (update_controller_data m data s).mm := by
  unfold recordedPosition at hrec
  rw [Bool.and_eq_true] at hrec
  obtain ⟨htd, hor⟩ := hrec
  rw [Bool.or_eq_true, Bool.and_eq_true, Bool.and_eq_true] at hor
  rcases hor with ⟨hkL, hrecL⟩ | ⟨hkR, hrecR⟩
  · cases hkRb : jHasKey data "right" with
    | true =>
        simp only [update_controller_data, htd, hkL, hkRb, if_true]
        exact update_controller_hand_mmWF m _ _ _
          (update_controller_hand_record_mmWF m _ _ _ hrecL)
    | false =>
        simp only [update_controller_data, htd, hkL, hkRb, Bool.false_eq_true,
          if_true, if_false]
        exact update_controller_hand_record_mmWF m _ _ _ hrecL
  · cases hkLb : jHasKey data "left" with
    | true =>
        simp only [update_controller_data, htd, hkLb, hkR, if_true]
        exact update_controller_hand_record_mmWF m _ _ _ hrecR
    | false =>
        simp only [update_controller_data, htd, hkLb, hkR, Bool.false_eq_true,
          if_true, if_false]
        exact update_controller_hand_record_mmWF m _ _ _ hrecR

/-- Across any sequence of updates, the bounds only widen. -/
theorem update_controller_data_fold_mmExtends (m : Nat) (ds : List JValue) :
    ∀ s : VizState,
      mmExtends ((ds.foldl (fun st d => update_controller_data m d st) s).mm) s.mm := by
  induction ds with
  | nil =>
      intro s
      exact mmExtends_refl _
  | cons d rest ih =>
      intro s
      simp only [List.foldl_cons]
      exact mmExtends_trans (ih _) (update_controller_data_mmExtends m d s)

/-- C8: across every sequence of receiver updates, each of
`min_x, min_y, min_z` never increases and each of `max_x, max_y, max_z`
never decreases; and after any update that recorded a tracked position, each
minimum is at most the corresponding maximum. -/
theorem c8_autoscale_monotone :
    (∀ (m : Nat) (ds : List JValue) (s : VizState),
      mmExtends ((ds.foldl (fun st d => update_controller_data m d st) s).mm) s.mm) ∧
    (∀ (m : Nat) (data : JValue) (s : VizState),
      recordedPosition data = true →
      mmWF (update_controller_data m data s).mm) :=
  ⟨update_controller_data_fold_mmExtends, update_controller_data_record_mmWF⟩

/-- A snapshot that records a tracked left position, used by the C8
witness. -/
def sampleRecordingSnapshot : JValue :=
  .obj [("left", .obj [("tracked", .bool true),
        ("position", .obj [("x", .num 1), ("y", .num 2), ("z", .num 3)])])]

/-- C8 witness: evaluation at a concrete recording snapshot. -/
theorem c8_autoscale_monotone_witness :
    mmWF (update_controller_data 50 sampleRecordingSnapshot initVizState).mm :=
  c8_autoscale_monotone.2 50 sampleRecordingSnapshot initVizState rfl

/-- The entries of the receiver's rotation matrix that the sender's
extraction reads. -/
theorem euler_matrix_entries (roll pitch yaw : ℝ) :
    euler_to_rotation_matrix roll pitch yaw 0 0 =
      Real.cos (radians yaw) * Real.cos (radians pitch) ∧
    euler_to_rotation_matrix roll pitch yaw 1 0 =
      Real.sin (radians yaw) * Real.cos (radians pitch) ∧
    euler_to_rotation_matrix roll pitch yaw 2 0 = -Real.sin (radians pitch) ∧
    euler_to_rotation_matrix roll pitch yaw 2 1 =
      Real.cos (radians pitch) * Real.sin (radians roll) ∧
    euler_to_rotation_matrix roll pitch yaw 2 2 =
      Real.cos (radians pitch) * Real.cos (radians roll) := by
  unfold euler_to_rotation_matrix R_x R_y R_z
  rw [Matrix.mul_fin_three, Matrix.mul_fin_three]
  refine ⟨?_, ?_, ?_, ?_, ?_⟩ <;>
    simp [Matrix.cons_val_zero, Matrix.cons_val_one, Matrix.cons_val_two,
      Matrix.head_cons, Matrix.vecHead, Matrix.vecTail]

/-- `math.degrees` undoes `math.radians` over `ℝ`. -/
theorem degrees_radians (x : ℝ) : degrees (radians x) = x := by
  unfold degrees radians
  field_simp

/-- Degrees in `(-180, 180]` land in the principal radian range. -/
theorem radians_mem_Ioc {a : ℝ} (h1 : -180 < a) (h2 : a ≤ 180) :
    radians a ∈ Set.Ioc (-Real.pi) Real.pi := by
  have h3 : (0 : ℝ) < Real.pi / 180 := by positivity
  constructor
  · calc -Real.pi = (-180) * (Real.pi / 180) := by ring
    _ < a * (Real.pi / 180) := mul_lt_mul_of_pos_right h1 h3
  · calc a * (Real.pi / 180) ≤ 180 * (Real.pi / 180) :=
        mul_le_mul_of_nonneg_right h2 h3.le
    _ = Real.pi := by ring

/-- Degrees strictly between -90 and 90 land strictly inside the half
principal range. -/
theorem radians_mem_Ioo_half {a : ℝ} (h1 : -90 < a) (h2 : a < 90) :
    radians a ∈ Set.Ioo (-(Real.pi / 2)) (Real.pi / 2) := by
  have h3 : (0 : ℝ) < Real.pi / 180 := by positivity
  constructor
  · calc -(Real.pi / 2) = (-90) * (Real.pi / 180) := by ring
    _ < a * (Real.pi / 180) := mul_lt_mul_of_pos_right h1 h3
  · calc a * (Real.pi / 180) < 90 * (Real.pi / 180) := mul_lt_mul_of_pos_right h2 h3
    _ = Real.pi / 2 := by ring

/-- On the principal range, `atan2` inverts the sine/cosine pair. -/
theorem atan2_sin_cos {t : ℝ} (ht : t ∈ Set.Ioc (-Real.pi) Real.pi) :
    atan2 (Real.sin t) (Real.cos t) = t := by
  unfold atan2
  rw [Complex.mk_eq_add_mul_I, Complex.ofReal_cos, Complex.ofReal_sin]
  exact Complex.arg_cos_add_sin_mul_I ht

/-- `atan2` is invariant under scaling both arguments by a positive
factor. -/
theorem atan2_mul_pos {r y x : ℝ} (hr : 0 < r) :
    atan2 (r * y) (r * x) = atan2 y x := by
  unfold atan2
  have hmk : Complex.mk (r * x) (r * y) = (r : ℂ) * Complex.mk x y := by
    rw [Complex.mk_eq_add_mul_I, Complex.mk_eq_add_mul_I]
    push_cast
    ring
  rw [hmk, Complex.arg_real_mul _ hr]

/-- C2 (amended): the conversions are mutually inverse on the principal
range: for roll and yaw in `(-180, 180]` degrees and pitch strictly between
-90 and 90 degrees, the sender's `extract_rotation_euler` applied to the
receiver's `euler_to_rotation_matrix` returns exactly `(roll, pitch, yaw)`
(real-number idealization of the float arithmetic). -/
theorem c2_euler_roundtrip (roll pitch yaw : ℝ)
    (hr1 : -180 < roll) (hr2 : roll ≤ 180)
    (hp1 : -90 < pitch) (hp2 : pitch < 90)
    (hy1 : -180 < yaw) (hy2 : yaw ≤ 180) :
    extract_rotation_euler (euler_to_rotation_matrix roll pitch yaw) =
      (roll, pitch, yaw) := by
  obtain ⟨e00, e10, e20, e21, e22⟩ := euler_matrix_entries roll pitch yaw
  have hpio := radians_mem_Ioo_half hp1 hp2
  have hcp : 0 < Real.cos (radians pitch) := Real.cos_pos_of_mem_Ioo hpio
  simp only [extract_rotation_euler]
  rw [e00, e10, e20, e21, e22]
  have hsq : Real.sqrt ((Real.cos (radians yaw) * Real.cos (radians pitch)) ^ 2 +
      (Real.sin (radians yaw) * Real.cos (radians pitch)) ^ 2) =
      Real.cos (radians pitch) := by
    have hsum : (Real.cos (radians yaw) * Real.cos (radians pitch)) ^ 2 +
        (Real.sin (radians yaw) * Real.cos (radians pitch)) ^ 2 =
        (Real.cos (radians pitch)) ^ 2 := by
      have hid := Real.sin_sq_add_cos_sq (radians yaw)
      nlinarith [hid]
    rw [hsum, Real.sqrt_sq hcp.le]
  rw [hsq]
  have hp_mem : radians pitch ∈ Set.Ioc (-Real.pi) Real.pi := by
    have hpi := Real.pi_pos
    exact ⟨by linarith [hpio.1], by linarith [hpio.2]⟩
  have hpitch : atan2 (-(-Real.sin (radians pitch))) (Real.cos (radians pitch)) =
      radians pitch := by
    rw [neg_neg]
    exact atan2_sin_cos hp_mem
  have hyaw : atan2 (Real.sin (radians yaw) * Real.cos (radians pitch))
      (Real.cos (radians yaw) * Real.cos (radians pitch)) = radians yaw := by
    rw [mul_comm (Real.sin (radians yaw)) (Real.cos (radians pitch)),
        mul_comm (Real.cos (radians yaw)) (Real.cos (radians pitch)),
        atan2_mul_pos hcp]
    exact atan2_sin_cos (radians_mem_Ioc hy1 hy2)
  have hroll : atan2 (Real.cos (radians pitch) * Real.sin (radians roll))
      (Real.cos (radians pitch) * Real.cos (radians roll)) = radians roll := by
    rw [atan2_mul_pos hcp]
    exact atan2_sin_cos (radians_mem_Ioc hr1 hr2)
  rw [hpitch, hyaw, hroll, degrees_radians, degrees_radians, degrees_radians]

/-- C2 counterexample: at roll = 360 (pitch = yaw = 0, so the pitch
hypothesis holds) the rotation matrix is the identity and the extraction
returns roll 0, not 360, refuting the claim for arbitrary roll and yaw. -/
theorem c2_counterexample :
    ¬ ∀ (roll pitch yaw : ℝ), -90 < pitch → pitch < 90 →
      extract_rotation_euler (euler_to_rotation_matrix roll pitch yaw) =
        (roll, pitch, yaw) := by
  intro hall
  have h := hall 360 0 0 (by norm_num) (by norm_num)
  have h1 : (extract_rotation_euler (euler_to_rotation_matrix 360 0 0)).1 = 0 := by
    obtain ⟨e00, e10, e20, e21, e22⟩ := euler_matrix_entries 360 0 0
    simp only [extract_rotation_euler]
    rw [e21, e22]
    have h360 : radians 360 = 2 * Real.pi := by
      unfold radians
      ring
    have h0 : radians (0 : ℝ) = 0 := by
      unfold radians
      ring
    rw [h360, h0, Real.cos_zero, Real.sin_two_pi, Real.cos_two_pi,
        mul_zero, mul_one]
    have harg : atan2 0 1 = 0 := by
      unfold atan2
      have hone : Complex.mk 1 0 = 1 := by
        rw [Complex.mk_eq_add_mul_I]
        push_cast
        ring
      rw [hone, Complex.arg_one]
    rw [harg]
    simp [degrees]
  rw [h] at h1
  norm_num at h1

/-- C2 witness: the round-trip at (0, 0, 0) with the range hypotheses
discharged. -/
theorem c2_euler_roundtrip_witness :
    ((-180 : ℝ) < 0 ∧ (0 : ℝ) ≤ 180 ∧ (-90 : ℝ) < 0 ∧ (0 : ℝ) < 90) ∧
    extract_rotation_euler (euler_to_rotation_matrix 0 0 0) = (0, 0, 0) :=
  ⟨⟨by norm_num, by norm_num, by norm_num, by norm_num⟩,
   c2_euler_roundtrip 0 0 0 (by norm_num) (by norm_num) (by norm_num)
     (by norm_num) (by norm_num) (by norm_num)⟩
